import Mathlib

/-!
Verification of the Emergency Dispatch & Assignment Engine of the
insant-ambulance repository.

The development shallowly embeds the dispatch/assignment core:
* `HospitalRow`, `DriverRow`, `RequestRow`, `AssignmentRow` model the rows of
  the `hospitals`, `drivers`, `emergency_requests` and `emergency_assignments`
  tables that the services read and write (fields restricted to those the
  services touch).
* `DB` is the persistent store together with a logical clock `now`
  (modelling SQL `NOW()`) and a fresh-id counter `next_id` (modelling the
  generated primary keys of inserted rows).
* Each service method of `HospitalService`, `DriverService` and
  `EmergencyService` becomes a function `DB → Except ApiError DB`.  The
  TypeScript methods run inside a BEGIN/COMMIT transaction with ROLLBACK on
  every thrown error, so an erroring call leaves the store untouched; the
  `Except` embedding reflects exactly that all-or-nothing behaviour.
  Read-only response formatting (the returned JSON payloads) does not affect
  the store and is not modelled.
-/

deriving instance DecidableEq for Except

namespace InstantAmbulance

/-- Errors thrown by the services: `ApiError(statusCode, message)` from
`middleware/errorHandler`.  The services use 404 for the spec's `NotFound`
and 400 for the spec's `Conflict`. -/
structure ApiError where
  statusCode : Nat
  message : String
  deriving Repr, DecidableEq

/-- A row of the `hospitals` table (fields used by the dispatch core).
`latitude`/`longitude` are nullable DECIMAL columns, modelled as `Option Rat`. -/
structure HospitalRow where
  id : Nat
  user_id : Nat
  name : String
  address : String
  latitude : Option Rat
  longitude : Option Rat
  emergency_capacity : Nat
  is_active : Bool
  deriving Repr, DecidableEq

/-- A row of the `drivers` table (fields used by the dispatch core). -/
structure DriverRow where
  id : Nat
  user_id : Nat
  is_available : Bool
  is_active : Bool
  is_approved : Bool
  updated_at : Nat
  deriving Repr, DecidableEq

/-- A row of the `emergency_requests` table (fields used by the dispatch
core).  `status` is kept as a string, exactly as the TypeScript services
compare and write it. -/
structure RequestRow where
  id : Nat
  user_id : Nat
  status : String
  hospital_id : Option Nat
  pickup_latitude : Rat
  pickup_longitude : Rat
  pickup_address : String
  description : String
  created_at : Nat
  updated_at : Nat
  deriving Repr, DecidableEq

/-- A row of the `emergency_assignments` table as the service layer writes it
(`DriverService.updateAssignmentStatus` writes `en_route_at`, `arrived_at`,
`completed_at` and `updated_at`; see `emergencyAssignmentsColumns` for the
column list the migration actually declares). -/
structure AssignmentRow where
  id : Nat
  emergency_id : Nat
  driver_id : Nat
  status : String
  assigned_at : Nat
  en_route_at : Option Nat
  arrived_at : Option Nat
  completed_at : Option Nat
  updated_at : Nat
  deriving Repr, DecidableEq

/-- The persistent store, plus a logical clock (`now`, the value of SQL
`NOW()` during the current operation) and a source of fresh primary keys
(`next_id`). -/
structure DB where
  hospitals : List HospitalRow
  drivers : List DriverRow
  requests : List RequestRow
  assignments : List AssignmentRow
  now : Nat
  next_id : Nat
  deriving Repr, DecidableEq

/-! ### HospitalService.acceptEmergencyRequest (src/unnamed/part_007, lines 189-287)

The method is read-validate-then-write: it SELECTs the request by id, checks
`status = 'pending'`, SELECTs the hospital by `user_id`, and only then issues
the UPDATE.  The check phase and the write phase are split into
`acceptCheck`/`acceptWrite` so that the unsynchronized-read race of §9 of the
spec can be exercised on the same code (`acceptRace` below); the sequential
operation is exactly check-then-write. -/

/-- The read/validate phase of `acceptEmergencyRequest`: the three queries and
checks the method performs before its UPDATE, evaluated against one snapshot
of the store.  Returns the hospital row to bind on success. -/
def acceptCheck (requestId hospitalUserId : Nat) (db : DB) :
    Except ApiError HospitalRow :=
  match db.requests.find? (fun r => r.id == requestId) with
  | none => .error ⟨404, "Emergency request not found"⟩
  | some req =>
    if req.status ≠ "pending" then
      .error ⟨400, "Emergency request is no longer pending"⟩
    else
      match db.hospitals.find? (fun h => h.user_id == hospitalUserId) with
      | none => .error ⟨404, "Hospital not found"⟩
      | some hospital => .ok hospital

/-- The write phase of `acceptEmergencyRequest`:
`UPDATE emergency_requests SET status = 'accepted', hospital_id = $1,
updated_at = NOW() WHERE id = $2`. -/
def acceptWrite (requestId hospitalId : Nat) (db : DB) : DB :=
  { db with
    requests := db.requests.map (fun r =>
      if r.id = requestId then
        { r with status := "accepted", hospital_id := some hospitalId,
                 updated_at := db.now }
      else r) }

/-- `HospitalService.acceptEmergencyRequest(requestId, hospitalId)`.  The
`hospitalId` argument is the authenticated hospital actor's user id (the
method resolves it through `hospitals.user_id`).  The trailing read-only
listing of available drivers does not change the store and is omitted. -/
def acceptEmergencyRequest (requestId hospitalUserId : Nat) (db : DB) :
    Except ApiError DB :=
  (acceptCheck requestId hospitalUserId db).map
    (fun hospital => acceptWrite requestId hospital.id db)

/-! ### HospitalService.assignDriverToEmergency (src/unnamed/part_007, lines 296-416) -/

/-- Row effect of `UPDATE drivers SET is_available = $A, updated_at = NOW()
WHERE id = $1` (used with `false` on assignment, `true` on completion and by
the availability toggle). -/
def setDriverAvailability (driverId : Nat) (avail : Bool) (now : Nat)
    (d : DriverRow) : DriverRow :=
  if d.id = driverId then { d with is_available := avail, updated_at := now }
  else d

/-- Row effect of `UPDATE emergency_requests SET status = $S, updated_at =
NOW() WHERE id = $1`. -/
def setRequestStatus (requestId : Nat) (st : String) (now : Nat)
    (r : RequestRow) : RequestRow :=
  if r.id = requestId then { r with status := st, updated_at := now } else r

/-- The write phase of `assignDriverToEmergency`, one transaction of three
statements: `UPDATE emergency_requests SET status = 'assigned', updated_at =
NOW() WHERE id = $1`; `INSERT INTO emergency_assignments (emergency_id,
driver_id, assigned_at, status) VALUES ($1, $2, NOW(), 'assigned')`;
`UPDATE drivers SET is_available = false, updated_at = NOW() WHERE id = $1`. -/
def assignWrite (requestId driverId : Nat) (db : DB) : DB :=
  { db with
    requests := db.requests.map (setRequestStatus requestId "assigned" db.now),
    assignments := db.assignments ++
      [{ id := db.next_id, emergency_id := requestId,
         driver_id := driverId, status := "assigned",
         assigned_at := db.now, en_route_at := none,
         arrived_at := none, completed_at := none,
         updated_at := db.now }],
    drivers := db.drivers.map (setDriverAvailability driverId false db.now),
    next_id := db.next_id + 1 }

/-- `HospitalService.assignDriverToEmergency(requestId, hospitalId, driverId)`.
Queries in source order: hospital by user id; request by id and bound
hospital; `status = 'accepted'` check; driver by id with
`is_approved = true AND is_active = true`; `is_available` check; then, in one
transaction, the request UPDATE, the assignment INSERT and the driver
UPDATE. -/
def assignDriverToEmergency (requestId hospitalUserId driverId : Nat)
    (db : DB) : Except ApiError DB :=
  match db.hospitals.find? (fun h => h.user_id == hospitalUserId) with
  | none => .error ⟨404, "Hospital not found"⟩
  | some hospital =>
    match db.requests.find? (fun r =>
        r.id == requestId && r.hospital_id == some hospital.id) with
    | none =>
      .error ⟨404, "Emergency request not found or not assigned to this hospital"⟩
    | some req =>
      if req.status ≠ "accepted" then
        .error ⟨400, "Emergency request must be in accepted status to assign a driver"⟩
      else
        match db.drivers.find? (fun d =>
            d.id == driverId && d.is_approved && d.is_active) with
        | none => .error ⟨404, "Driver not found or not approved"⟩
        | some driver =>
          if driver.is_available = false then
            .error ⟨400, "Driver is currently unavailable"⟩
          else
            .ok (assignWrite requestId driverId db)

/-! ### DriverService.updateAssignmentStatus (driver.service.ts, lines 239-348) -/

/-- The `validStatusMap` of `DriverService.updateAssignmentStatus`:
`{assigned: ['en_route'], en_route: ['arrived'], arrived: ['completed']}`.
A status outside the map yields `[]`, matching the optional-chaining lookup
`validStatusMap[assignment.status]?.includes(status)`. -/
def validStatusMap (s : String) : List String :=
  if s = "assigned" then ["en_route"]
  else if s = "en_route" then ["arrived"]
  else if s = "arrived" then ["completed"]
  else []

/-- Row effect of the assignment UPDATE: the matched row gets the new status,
`updated_at`, and the timestamp column picked by the if/else-if chain on the
target status. -/
def advanceRow (assignmentId : Nat) (status : String) (now : Nat)
    (a : AssignmentRow) : AssignmentRow :=
  if a.id = assignmentId then
    let a1 := { a with status := status, updated_at := now }
    if status = "en_route" then { a1 with en_route_at := some now }
    else if status = "arrived" then { a1 with arrived_at := some now }
    else if status = "completed" then { a1 with completed_at := some now }
    else a1
  else a

/-- The write phase of `updateAssignmentStatus` once the transition is
validated: the assignment UPDATE, and — only when the target is `completed` —
the driver UPDATE (`is_available = true`) and the request UPDATE
(`status = 'completed'`), all in one transaction.  `driverId`/`emergencyId`
are the resolved `driver.id` and `assignment.emergency_id` of the validated
rows. -/
def advanceWrite (assignmentId driverId emergencyId : Nat) (status : String)
    (db : DB) : DB :=
  { db with
    assignments := db.assignments.map (advanceRow assignmentId status db.now),
    drivers :=
      if status = "completed" then
        db.drivers.map (setDriverAvailability driverId true db.now)
      else db.drivers,
    requests :=
      if status = "completed" then
        db.requests.map (setRequestStatus emergencyId "completed" db.now)
      else db.requests }

/-- `DriverService.updateAssignmentStatus(assignmentId, driverId, status)`.
`driverId` is the authenticated driver's user id.  On a valid one-step
transition the assignment row gets the new status, the timestamp column for
the status reached, and `updated_at`; reaching `completed` additionally sets
the driver available and the bound request's status to `completed`, in the
same transaction. -/
def updateAssignmentStatus (assignmentId driverUserId : Nat) (status : String)
    (db : DB) : Except ApiError DB :=
  match db.drivers.find? (fun d => d.user_id == driverUserId) with
  | none => .error ⟨404, "Driver not found"⟩
  | some driver =>
    match db.assignments.find? (fun a =>
        a.id == assignmentId && a.driver_id == driver.id) with
    | none => .error ⟨404, "Assignment not found or not assigned to this driver"⟩
    | some assignment =>
      if (validStatusMap assignment.status).contains status = false then
        .error ⟨400, "Cannot transition from " ++ assignment.status ++ " to " ++ status⟩
      else
        .ok (advanceWrite assignmentId driver.id assignment.emergency_id status db)

/-! ### DriverService.updateAvailabilityStatus (driver.service.ts, lines 73-147) -/

/-- The non-terminal assignment statuses the availability guard checks:
`status IN ('assigned', 'en_route', 'arrived')`. -/
def activeStatuses : List String := ["assigned", "en_route", "arrived"]

/-- `DriverService.updateAvailabilityStatus(driverId, isAvailable)`.
Going unavailable is refused while any assignment of the driver is in a
non-terminal status; going available is unguarded. -/
def updateAvailabilityStatus (driverUserId : Nat) (isAvailable : Bool)
    (db : DB) : Except ApiError DB :=
  match db.drivers.find? (fun d => d.user_id == driverUserId) with
  | none => .error ⟨404, "Driver not found"⟩
  | some driver =>
    if isAvailable = false ∧
       (db.assignments.any (fun a =>
         a.driver_id == driver.id && activeStatuses.contains a.status)) then
      .error ⟨400, "Cannot change status to unavailable with active assignments"⟩
    else
      .ok { db with
        drivers := db.drivers.map
          (setDriverAvailability driver.id isAvailable db.now) }

/-! ### EmergencyService.createEmergencyRequest (emergency.service.ts, lines 153-235) -/

/-- `EmergencyService.createEmergencyRequest`.  Inserts a request with
`status = 'pending'` and the caller's pickup data.  The subsequent
`findNearbyHospitals` lookup is read-only, fire-and-forget and its errors
are swallowed, so it has no effect on the store. -/
def createEmergencyRequest (userId : Nat) (lat lon : Rat)
    (addr notes : String) (db : DB) : Except ApiError DB :=
  .ok { db with
    requests := db.requests ++
      [{ id := db.next_id, user_id := userId, status := "pending",
         hospital_id := none, pickup_latitude := lat, pickup_longitude := lon,
         pickup_address := addr, description := notes,
         created_at := db.now, updated_at := db.now }],
    next_id := db.next_id + 1 }

/-! ### EmergencyService.findNearbyHospitals (emergency.service.ts, lines 93-146)

The SQL keeps hospitals with `is_active = true AND latitude IS NOT NULL AND
longitude IS NOT NULL` and counts each hospital's requests with status
`accepted` or `assigned`; the TypeScript then maps each row to a candidate
with its distance, filters by `maxDistance`, sorts ascending by distance and
takes `limit`.  `utils/locationUtils.calculateDistance` is real-valued
haversine trigonometry; the matcher is therefore embedded parametrically in
the distance function `dist` (every theorem below holds for an arbitrary
`dist`, in particular for the haversine one). -/

/-- A candidate returned by `findNearbyHospitals` (the `NearbyHospital`
interface of emergency.service.ts). -/
structure NearbyHospital where
  id : Nat
  name : String
  user_id : Nat
  address : String
  latitude : Rat
  longitude : Rat
  distance : Rat
  maxCapacity : Nat
  currentRequests : Nat
  deriving Repr, DecidableEq

/-- `COUNT(er.id) FILTER (WHERE er.status = 'accepted' OR er.status =
'assigned')` for one hospital. -/
def currentRequestsFor (db : DB) (hospitalId : Nat) : Nat :=
  (db.requests.filter (fun r =>
    r.hospital_id == some hospitalId &&
    (r.status == "accepted" || r.status == "assigned"))).length

/-- The pre-sort pipeline of `findNearbyHospitals`: the SQL row filter
(`is_active` and non-null coordinates), the map to candidates with their
distances, and the `maxDistance` filter. -/
def nearbyPipeline (dist : Rat → Rat → Rat → Rat → Rat)
    (latitude longitude : Rat) (maxDistance : Rat) (db : DB) :
    List NearbyHospital :=
  (db.hospitals.filterMap (fun h =>
    match h.latitude, h.longitude with
    | some hla, some hlo =>
      if h.is_active then
        some { id := h.id, name := h.name, user_id := h.user_id,
               address := h.address, latitude := hla, longitude := hlo,
               distance := dist latitude longitude hla hlo,
               maxCapacity := h.emergency_capacity,
               currentRequests := currentRequestsFor db h.id }
      else none
    | _, _ => none)).filter (fun c => c.distance ≤ maxDistance)

/-- `EmergencyService.findNearbyHospitals(latitude, longitude, maxDistance,
limit)`, parametric in the distance function `dist lat1 lon1 lat2 lon2`:
filter, sort ascending by distance, truncate to `limit`. -/
def findNearbyHospitals (dist : Rat → Rat → Rat → Rat → Rat)
    (latitude longitude : Rat) (maxDistance : Rat) (lim : Nat)
    (db : DB) : List NearbyHospital :=
  ((nearbyPipeline dist latitude longitude maxDistance db).mergeSort
    (fun a b => a.distance ≤ b.distance)).take lim

/-! ### Operation sequences -/

/-- The state-mutating operations of the dispatch core, in the spec's naming:
`createRequest` / `acceptRequest` / `assignDriver` / `advanceAssignment` /
`setAvailability`. -/
inductive Op where
  | createRequest (userId : Nat) (lat lon : Rat) (addr notes : String)
  | acceptRequest (requestId hospitalUserId : Nat)
  | assignDriver (requestId hospitalUserId driverId : Nat)
  | advanceAssignment (assignmentId driverUserId : Nat) (target : String)
  | setAvailability (driverUserId : Nat) (avail : Bool)
  deriving Repr, DecidableEq

/-- Dispatch an operation to its service method. -/
def runOp (op : Op) (db : DB) : Except ApiError DB :=
  match op with
  | .createRequest u la lo ad no => createEmergencyRequest u la lo ad no db
  | .acceptRequest rid huid => acceptEmergencyRequest rid huid db
  | .assignDriver rid huid did => assignDriverToEmergency rid huid did db
  | .advanceAssignment aid duid tgt => updateAssignmentStatus aid duid tgt db
  | .setAvailability duid avail => updateAvailabilityStatus duid avail db

/-- The store after one call: an erroring call rolls back and leaves the
store unchanged. -/
def applyOp (db : DB) (op : Op) : DB :=
  match runOp op db with
  | .ok db' => db'
  | .error _ => db

/-- The store after a sequence of completed calls. -/
def runSeq (db : DB) (ops : List Op) : DB := ops.foldl applyOp db

/-- Whether an operation is a `setAvailability` call. -/
def Op.isSetAvailability : Op → Bool
  | .setAvailability _ _ => true
  | _ => false

/-! ### Invariants -/

/-- A status counted as non-terminal by the availability guard. -/
def isNonTerminal (s : String) : Bool := activeStatuses.contains s

/-- Number of non-terminal assignments bound to a driver row id. -/
def activeCount (db : DB) (driverId : Nat) : Nat :=
  db.assignments.countP (fun a =>
    a.driver_id == driverId && isNonTerminal a.status)

/-- The driver-availability invariant of §8 of the spec, exactly as the claim
states it: every driver with `isAvailable == false` has exactly one
non-terminal assignment, and every driver with no non-terminal assignment has
`isAvailable == true`. -/
def ClaimDriverInv (db : DB) : Prop :=
  ∀ d ∈ db.drivers,
    (d.is_available = false → activeCount db d.id = 1) ∧
    (activeCount db d.id = 0 → d.is_available = true)

instance (db : DB) : Decidable (ClaimDriverInv db) := by
  unfold ClaimDriverInv
  infer_instance

/-- The availability/assignment coupling the code actually maintains when no
`setAvailability` call intervenes: available drivers have no non-terminal
assignment, unavailable drivers exactly one. -/
def DriverInv (db : DB) : Prop :=
  ∀ d ∈ db.drivers,
    (d.is_available = true → activeCount db d.id = 0) ∧
    (d.is_available = false → activeCount db d.id = 1)

instance (db : DB) : Decidable (DriverInv db) := by
  unfold DriverInv
  infer_instance

/-- Well-formedness of the store: primary keys are unique and below the
fresh-id counter (as the database's generated keys are). -/
def WF (db : DB) : Prop :=
  (db.assignments.map (fun a => a.id)).Nodup ∧
  (∀ a ∈ db.assignments, a.id < db.next_id) ∧
  (db.drivers.map (fun d => d.id)).Nodup

instance (db : DB) : Decidable (WF db) := by
  unfold WF
  infer_instance

/-- Combined inductive invariant for the driver-availability property. -/
def Inv (db : DB) : Prop := WF db ∧ DriverInv db

instance (db : DB) : Decidable (Inv db) := by
  unfold Inv
  infer_instance

/-- No request row has status `in_progress`. -/
def NoInProgress (db : DB) : Prop :=
  ∀ r ∈ db.requests, r.status ≠ "in_progress"

instance (db : DB) : Decidable (NoInProgress db) := by
  unfold NoInProgress
  infer_instance

/-! ### Schema of the migration, for the timestamp-column claims

`001_initial_schema.sql` declares the `emergency_assignments` table (lines
95-107) and the `emergency_status` enum (lines 67-74); these definitions
transcribe them so the service's UPDATE can be checked against them. -/

/-- Columns of `emergency_assignments` in 001_initial_schema.sql. -/
def emergencyAssignmentsColumns : List String :=
  ["id", "emergency_id", "driver_id", "assigned_at", "accepted_at",
   "pickup_at", "completed_at", "status", "notes"]

/-- Values of the `emergency_status` enum in 001_initial_schema.sql (the type
of both `emergency_requests.status` and `emergency_assignments.status`). -/
def emergencyStatusValues : List String :=
  ["pending", "accepted", "assigned", "in_progress", "completed", "cancelled"]

/-- Columns named in the SET clause of the UPDATE that
`DriverService.updateAssignmentStatus` issues for a given target status:
`status`, the timestamp column picked by the if/else-if chain, and
`updated_at`. -/
def updateAssignmentSetColumns (status : String) : List String :=
  ["status"] ++
  (if status = "en_route" then ["en_route_at"]
   else if status = "arrived" then ["arrived_at"]
   else if status = "completed" then ["completed_at"]
   else []) ++
  ["updated_at"]

/-! ### The unsynchronized accept race (spec §5 and §9)

`acceptEmergencyRequest` is a plain read-then-write: the status check runs in
application code on rows read without row locking (no `FOR UPDATE`, default
READ COMMITTED isolation), and the UPDATE's WHERE clause is `id = $2` alone.
Under the interleaving in which both transactions perform their reads before
either commits, each check sees the request still `pending`; both UPDATEs
then execute (the second blocks on the row lock until the first commits and
then proceeds, since its WHERE clause still matches), and both callers
report success. -/

/-- Two concurrent `acceptEmergencyRequest` calls for the same request under
the read-read-write-write interleaving: each caller's check phase runs
against the initial snapshot, then both write phases commit in order.
Returns each caller's error (`none` = success) and the final store. -/
def acceptRace (requestId hospitalUserId1 hospitalUserId2 : Nat) (db : DB) :
    Option ApiError × Option ApiError × DB :=
  match acceptCheck requestId hospitalUserId1 db,
        acceptCheck requestId hospitalUserId2 db with
  | .ok h1, .ok h2 =>
    (none, none, acceptWrite requestId h2.id (acceptWrite requestId h1.id db))
  | .ok h1, .error e2 => (none, some e2, acceptWrite requestId h1.id db)
  | .error e1, .ok h2 => (some e1, none, acceptWrite requestId h2.id db)
  | .error e1, .error e2 => (some e1, some e2, db)

/-! ### Spec-side statements -/

/-- One step forward per the spec's allowed map
`{Assigned: [EnRoute], EnRoute: [Arrived], Arrived: [Completed]}`, written
out from the spec's words (to be compared with the code's `validStatusMap`). -/
def oneStepForward (cur target : String) : Prop :=
  (cur = "assigned" ∧ target = "en_route") ∨
  (cur = "en_route" ∧ target = "arrived") ∨
  (cur = "arrived" ∧ target = "completed")

instance (cur target : String) : Decidable (oneStepForward cur target) := by
  unfold oneStepForward
  infer_instance

/-! ### Sample data for concrete witnesses and counterexamples -/

/-- An active hospital with coordinates, owned by user 10. -/
def hospA : HospitalRow :=
  { id := 1, user_id := 10, name := "General", address := "1 Main St",
    latitude := some 37, longitude := some (-122),
    emergency_capacity := 20, is_active := true }

/-- A second active hospital with coordinates, owned by user 11. -/
def hospB : HospitalRow :=
  { id := 2, user_id := 11, name := "Mercy", address := "2 Oak Ave",
    latitude := some 38, longitude := some (-121),
    emergency_capacity := 15, is_active := true }

/-- An approved, active, available driver (row id 3, user 12). -/
def drvAvail : DriverRow :=
  { id := 3, user_id := 12, is_available := true, is_active := true,
    is_approved := true, updated_at := 0 }

/-- An unapproved but active and available driver (row id 3, user 12). -/
def drvUnapproved : DriverRow :=
  { id := 3, user_id := 12, is_available := true, is_active := true,
    is_approved := false, updated_at := 0 }

/-- A pending request (id 5) from user 20, not yet bound to a hospital. -/
def reqPending : RequestRow :=
  { id := 5, user_id := 20, status := "pending", hospital_id := none,
    pickup_latitude := 37, pickup_longitude := -122,
    pickup_address := "somewhere", description := "", created_at := 0,
    updated_at := 0 }

/-- The same request once accepted by hospital 1. -/
def reqAccepted : RequestRow :=
  { reqPending with status := "accepted", hospital_id := some 1 }

/-- An assignment (id 7) of driver 3 to request 5, in status `assigned`. -/
def asgAssigned : AssignmentRow :=
  { id := 7, emergency_id := 5, driver_id := 3, status := "assigned",
    assigned_at := 0, en_route_at := none, arrived_at := none,
    completed_at := none, updated_at := 0 }

/-- The same assignment in status `arrived`. -/
def asgArrived : AssignmentRow :=
  { asgAssigned with
    status := "arrived", en_route_at := some 1, arrived_at := some 2 }

/-- Store with an accepted request bound to hospital 1 and an available
driver: ready for `assignDriverToEmergency`. -/
def dbAssignReady : DB :=
  { hospitals := [hospA], drivers := [drvAvail], requests := [reqAccepted],
    assignments := [], now := 4, next_id := 8 }

/-- Store with an accepted request bound to hospital 1 and an unapproved
driver. -/
def dbUnapproved : DB :=
  { dbAssignReady with drivers := [drvUnapproved] }

/-- Store with an assignment in status `assigned` and its (now unavailable)
driver. -/
def dbAdvanceReady : DB :=
  { hospitals := [hospA],
    drivers := [{ drvAvail with is_available := false }],
    requests := [{ reqAccepted with status := "assigned" }],
    assignments := [asgAssigned], now := 4, next_id := 8 }

/-- Store with an assignment in status `arrived`, ready to complete. -/
def dbArrived : DB :=
  { dbAdvanceReady with assignments := [asgArrived] }

/-- Store with a pending request and two hospitals: the race scenario. -/
def dbRace : DB :=
  { hospitals := [hospA, hospB], drivers := [], requests := [reqPending],
    assignments := [], now := 4, next_id := 8 }

/-- Store with a single idle available driver and no assignments. -/
def dbIdleDriver : DB :=
  { hospitals := [], drivers := [drvAvail], requests := [], assignments := [],
    now := 0, next_id := 1 }

/-- Store used to exercise the hospital matcher: one active, located
hospital. -/
def dbNearby : DB :=
  { hospitals := [hospA], drivers := [], requests := [], assignments := [],
    now := 0, next_id := 1 }

/-- A constant distance function used to instantiate the parametric
matcher in concrete witnesses. -/
def distOne : Rat → Rat → Rat → Rat → Rat := fun _ _ _ _ => 1

/-- The candidate the matcher produces from `hospA` under `distOne`. -/
def candA : NearbyHospital :=
  { id := 1, name := "General", user_id := 10, address := "1 Main St",
    latitude := 37, longitude := -122, distance := 1, maxCapacity := 20,
    currentRequests := 0 }

/-- Store for the full dispatch pipeline witness: hospital, driver and a
fresh pending request. -/
def dbPipeline : DB :=
  { hospitals := [hospA], drivers := [drvAvail], requests := [reqPending],
    assignments := [], now := 0, next_id := 8 }

/-! ## Lemmas about the embedded operations -/

/-- The code's `validStatusMap` lookup agrees with the spec's one-step-forward
relation. -/
theorem contains_validStatusMap (cur target : String) :
    (validStatusMap cur).contains target = true ↔ oneStepForward cur target := by
  unfold validStatusMap oneStepForward
  split_ifs with h1 h2 h3 <;> simp_all

/-- Inversion of a successful `acceptCheck`: the request was found, it was
pending, and the hospital row was found. -/
theorem acceptCheck_ok {requestId hospitalUserId : Nat} {db : DB}
    {hosp : HospitalRow}
    (h : acceptCheck requestId hospitalUserId db = .ok hosp) :
    ∃ req, db.requests.find? (fun r => r.id == requestId) = some req ∧
      req.status = "pending" ∧
      db.hospitals.find? (fun x => x.user_id == hospitalUserId) = some hosp := by
  unfold acceptCheck at h
  split at h
  next hr => simp at h
  next req hr =>
    split_ifs at h with hs
    push_neg at hs
    split at h
    next hh => simp at h
    next hosp2 hh =>
      simp only [Except.ok.injEq] at h
      exact ⟨req, hr, hs, h ▸ hh⟩

/-- Inversion of a successful `acceptEmergencyRequest`: it is the write phase
applied after a successful check phase. -/
theorem acceptEmergencyRequest_ok {requestId hospitalUserId : Nat}
    {db db' : DB}
    (h : acceptEmergencyRequest requestId hospitalUserId db = .ok db') :
    ∃ hosp, acceptCheck requestId hospitalUserId db = .ok hosp ∧
      db' = acceptWrite requestId hosp.id db := by
  unfold acceptEmergencyRequest at h
  cases hc : acceptCheck requestId hospitalUserId db with
  | ok hosp =>
    rw [hc] at h
    simp only [Except.map, Except.ok.injEq] at h
    exact ⟨hosp, rfl, h.symm⟩
  | error e => rw [hc] at h; simp [Except.map] at h

/-- A failing check phase makes `acceptEmergencyRequest` fail with the same
error. -/
theorem acceptEmergencyRequest_error {requestId hospitalUserId : Nat}
    {db : DB} {e : ApiError}
    (h : acceptCheck requestId hospitalUserId db = .error e) :
    acceptEmergencyRequest requestId hospitalUserId db = .error e := by
  unfold acceptEmergencyRequest
  rw [h]
  rfl

/-- Inversion of a successful `assignDriverToEmergency`: all five
validations passed and the store is the three-statement write phase. -/
theorem assignDriverToEmergency_ok {requestId hospitalUserId driverId : Nat}
    {db db' : DB}
    (h : assignDriverToEmergency requestId hospitalUserId driverId db = .ok db') :
    ∃ hosp req driver,
      db.hospitals.find? (fun x => x.user_id == hospitalUserId) = some hosp ∧
      db.requests.find? (fun r =>
        r.id == requestId && r.hospital_id == some hosp.id) = some req ∧
      req.status = "accepted" ∧
      db.drivers.find? (fun d =>
        d.id == driverId && d.is_approved && d.is_active) = some driver ∧
      driver.is_available = true ∧
      db' = assignWrite requestId driverId db := by
  unfold assignDriverToEmergency at h
  split at h
  next hh => simp at h
  next hosp hh =>
    split at h
    next hr => simp at h
    next req hr =>
      split_ifs at h with hs
      push_neg at hs
      split at h
      next hd => simp at h
      next driver hd =>
        split_ifs at h with hv
        simp only [Except.ok.injEq] at h
        refine ⟨hosp, req, driver, hh, hr, hs, hd, ?_, h.symm⟩
        revert hv
        cases driver.is_available <;> simp

/-- Inversion of a successful `updateAssignmentStatus`: the driver and the
assignment were found, the transition is in the `validStatusMap`, and the
store is the write phase. -/
theorem updateAssignmentStatus_ok {assignmentId driverUserId : Nat}
    {target : String} {db db' : DB}
    (h : updateAssignmentStatus assignmentId driverUserId target db = .ok db') :
    ∃ driver a,
      db.drivers.find? (fun d => d.user_id == driverUserId) = some driver ∧
      db.assignments.find? (fun x =>
        x.id == assignmentId && x.driver_id == driver.id) = some a ∧
      (validStatusMap a.status).contains target = true ∧
      db' = advanceWrite assignmentId driver.id a.emergency_id target db := by
  unfold updateAssignmentStatus at h
  split at h
  next hd => simp at h
  next driver hd =>
    split at h
    next ha => simp at h
    next a ha =>
      split_ifs at h with hc
      simp only [Except.ok.injEq] at h
      refine ⟨driver, a, hd, ha, ?_, h.symm⟩
      revert hc
      cases (validStatusMap a.status).contains target <;> simp

/-- Inversion of a successful `updateAvailabilityStatus`: the driver row was
found and only the driver table changed. -/
theorem updateAvailabilityStatus_ok {driverUserId : Nat} {avail : Bool}
    {db db' : DB}
    (h : updateAvailabilityStatus driverUserId avail db = .ok db') :
    ∃ driver,
      db.drivers.find? (fun d => d.user_id == driverUserId) = some driver ∧
      db' = { db with
        drivers :=
          db.drivers.map (setDriverAvailability driver.id avail db.now) } := by
  unfold updateAvailabilityStatus at h
  split at h
  next hd => simp at h
  next driver hd =>
    split_ifs at h
    simp only [Except.ok.injEq] at h
    exact ⟨driver, hd, h.symm⟩

/-! ## Row-rewriter facts -/

/-- `advanceRow` never changes the row id. -/
theorem advanceRow_id (aid : Nat) (st : String) (now : Nat)
    (a : AssignmentRow) : (advanceRow aid st now a).id = a.id := by
  unfold advanceRow
  split_ifs <;> rfl

/-- `advanceRow` never changes the bound driver. -/
theorem advanceRow_driver_id (aid : Nat) (st : String) (now : Nat)
    (a : AssignmentRow) :
    (advanceRow aid st now a).driver_id = a.driver_id := by
  unfold advanceRow
  split_ifs <;> rfl

/-- `advanceRow` leaves non-matching rows untouched. -/
theorem advanceRow_other {aid : Nat} {st : String} {now : Nat}
    {a : AssignmentRow} (h : a.id ≠ aid) : advanceRow aid st now a = a := by
  unfold advanceRow
  rw [if_neg h]

/-- `advanceRow` gives the matching row the target status. -/
theorem advanceRow_status {aid : Nat} {st : String} {now : Nat}
    {a : AssignmentRow} (h : a.id = aid) :
    (advanceRow aid st now a).status = st := by
  unfold advanceRow
  rw [if_pos h]
  split_ifs <;> rfl

/-- `setDriverAvailability` never changes the row id. -/
theorem setDriverAvailability_id (did : Nat) (avail : Bool) (now : Nat)
    (d : DriverRow) : (setDriverAvailability did avail now d).id = d.id := by
  unfold setDriverAvailability
  split_ifs <;> rfl

/-! ## Counting lemmas -/

/-- `countP` is unchanged by a map that preserves the predicate row-wise. -/
theorem countP_map_congr {α : Type} (q : α → Bool) (f : α → α) (l : List α)
    (hf : ∀ x ∈ l, q (f x) = q x) : (l.map f).countP q = l.countP q := by
  induction l with
  | nil => rfl
  | cons x t ih =>
    rw [List.map_cons, List.countP_cons, List.countP_cons,
      hf x (List.mem_cons_self x t),
      ih (fun y hy => hf y (List.mem_cons_of_mem x hy))]

/-- Effect on `countP` of a map that rewrites only the unique row carrying a
given key. -/
theorem countP_map_key {α : Type} (q : α → Bool) (f : α → α) (key : α → Nat)
    (i : Nat) (l : List α) (hn : (l.map key).Nodup) (a0 : α) (ha0 : a0 ∈ l)
    (hk : key a0 = i) (hother : ∀ x ∈ l, key x ≠ i → f x = x) :
    (l.map f).countP q + (if q a0 then 1 else 0) =
      l.countP q + (if q (f a0) then 1 else 0) := by
  induction l with
  | nil => cases ha0
  | cons x t ih =>
    rw [List.map_cons, List.nodup_cons] at hn
    rcases List.mem_cons.mp ha0 with rfl | hmem
    · have ht : t.map f = t := by
        refine (List.map_congr_left fun y hy => ?_).trans (List.map_id t)
        refine hother y (List.mem_cons_of_mem _ hy) fun he => hn.1 ?_
        rw [hk, ← he]
        exact List.mem_map_of_mem key hy
      rw [List.map_cons, ht, List.countP_cons, List.countP_cons]
      cases hq1 : q (f a0) <;> cases hq2 : q a0 <;> simp [hq1, hq2]
    · have hx : key x ≠ i := by
        intro he
        exact hn.1 (by rw [he, ← hk]; exact List.mem_map_of_mem key hmem)
      have hfx : f x = x := hother x (List.mem_cons_self x t) hx
      rw [List.map_cons, hfx, List.countP_cons, List.countP_cons]
      have ihh := ih hn.2 hmem (fun y hy hne =>
        hother y (List.mem_cons_of_mem x hy) hne)
      omega

/-- Mapping with an id-preserving rewriter keeps the id list, hence its
`Nodup`. -/
theorem nodup_map_of_key_fixed {α : Type} (key : α → Nat) (f : α → α)
    (l : List α) (hf : ∀ x ∈ l, key (f x) = key x)
    (hn : (l.map key).Nodup) : ((l.map f).map key).Nodup := by
  rw [List.map_map]
  have he : List.map (key ∘ f) l = List.map key l :=
    List.map_congr_left (fun a ha => hf a ha)
  rwa [he]

/-! ## Invariant transport -/

/-- `DriverInv` only depends on the driver and assignment tables. -/
theorem DriverInv_ext (db db' : DB) (ha : db'.assignments = db.assignments)
    (hd : db'.drivers = db.drivers) (h : DriverInv db) : DriverInv db' := by
  unfold DriverInv activeCount at h ⊢
  rw [ha, hd]
  exact h

/-- `WF` only depends on assignments, drivers and the id counter. -/
theorem WF_ext (db db' : DB) (ha : db'.assignments = db.assignments)
    (hd : db'.drivers = db.drivers) (hn : db.next_id ≤ db'.next_id)
    (h : WF db) : WF db' := by
  unfold WF at h ⊢
  rw [ha, hd]
  exact ⟨h.1, fun a hA => lt_of_lt_of_le (h.2.1 a hA) hn, h.2.2⟩

/-- A completed call moves the store to the returned state. -/
theorem applyOp_ok (op : Op) {db db' : DB} (h : runOp op db = .ok db') :
    applyOp db op = db' := by
  unfold applyOp
  rw [h]

/-- A failed call rolls back: the store is unchanged. -/
theorem applyOp_error (op : Op) {db : DB} {e : ApiError}
    (h : runOp op db = .error e) : applyOp db op = db := by
  unfold applyOp
  rw [h]

/-! ## Preservation of the driver-availability invariant -/

/-- `createRequest` touches neither drivers nor assignments. -/
theorem inv_createRequest (u : Nat) (la lo : Rat) (ad no : String) (db : DB)
    (h : Inv db) : Inv (applyOp db (.createRequest u la lo ad no)) := by
  rw [applyOp_ok (.createRequest u la lo ad no) rfl]
  exact ⟨WF_ext db _ rfl rfl (Nat.le_succ db.next_id) h.1,
    DriverInv_ext db _ rfl rfl h.2⟩

/-- `acceptRequest` touches neither drivers nor assignments. -/
theorem inv_acceptRequest (rid huid : Nat) (db : DB) (h : Inv db) :
    Inv (applyOp db (.acceptRequest rid huid)) := by
  cases hr : acceptEmergencyRequest rid huid db with
  | error e => rw [applyOp_error (.acceptRequest rid huid) hr]; exact h
  | ok db' =>
    obtain ⟨hosp, -, rfl⟩ := acceptEmergencyRequest_ok hr
    rw [applyOp_ok (.acceptRequest rid huid) hr]
    exact ⟨WF_ext db _ rfl rfl le_rfl h.1, DriverInv_ext db _ rfl rfl h.2⟩

/-- A successful `assignDriver` inserts one fresh non-terminal assignment for
a driver that was available (hence had none) and flips that driver to
unavailable: the coupling is preserved. -/
theorem inv_assignDriver (rid huid did : Nat) (db : DB) (h : Inv db) :
    Inv (applyOp db (.assignDriver rid huid did)) := by
  cases hr : assignDriverToEmergency rid huid did db with
  | error e => rw [applyOp_error (.assignDriver rid huid did) hr]; exact h
  | ok db' =>
    obtain ⟨hosp, req, driver, hh, hq, hs, hd, hv, rfl⟩ :=
      assignDriverToEmergency_ok hr
    rw [applyOp_ok (.assignDriver rid huid did) hr]
    obtain ⟨hnodupA, hbound, hnodupD⟩ := h.1
    have hdmem : driver ∈ db.drivers := List.mem_of_find?_eq_some hd
    have hdp := List.find?_some hd
    simp only [Bool.and_eq_true, beq_iff_eq] at hdp
    obtain ⟨⟨hdid, -⟩, -⟩ := hdp
    have hcount : ∀ k : Nat, activeCount (assignWrite rid did db) k =
        activeCount db k + (if did = k then 1 else 0) := by
      intro k
      unfold activeCount assignWrite
      dsimp only
      rw [List.countP_append]
      congr 1
      by_cases hk : did = k <;>
        simp [hk, List.countP_cons, isNonTerminal, activeStatuses]
    constructor
    · refine ⟨?_, ?_, ?_⟩
      · unfold assignWrite
        dsimp only
        rw [List.map_append, List.nodup_append]
        refine ⟨hnodupA, List.nodup_singleton _, ?_⟩
        intro y hy hy2
        simp only [List.map_cons, List.map_nil, List.mem_singleton] at hy2
        obtain ⟨a, haMem, rfl⟩ := List.mem_map.mp hy
        exact absurd (hbound a haMem) (by rw [hy2]; omega)
      · unfold assignWrite
        dsimp only
        intro a haMem
        rcases List.mem_append.mp haMem with hOld | hNew
        · exact Nat.lt_succ_of_lt (hbound a hOld)
        · simp only [List.mem_singleton] at hNew
          rw [hNew]
          exact Nat.lt_succ_self _
      · unfold assignWrite
        dsimp only
        exact nodup_map_of_key_fixed _ _ _
          (fun d _ => setDriverAvailability_id _ _ _ _) hnodupD
    · intro d' hd'
      have hd'' : d' ∈ db.drivers.map (setDriverAvailability did false db.now) := hd'
      obtain ⟨d, hdm, rfl⟩ := List.mem_map.mp hd''
      unfold setDriverAvailability
      by_cases hcase : d.id = did
      · rw [if_pos hcase]
        have hde : d = driver :=
          List.inj_on_of_nodup_map hnodupD hdm hdmem (by rw [hcase, hdid])
        constructor
        · intro hx
          exact absurd hx (by simp)
        · intro _
          show activeCount (assignWrite rid did db) d.id = 1
          have h0 : activeCount db d.id = 0 := by
            rw [hde]
            exact (h.2 driver hdmem).1 hv
          rw [hcount d.id, h0, if_pos hcase.symm]
      · rw [if_neg hcase]
        have hcnt : activeCount (assignWrite rid did db) d.id =
            activeCount db d.id := by
          rw [hcount d.id, if_neg (fun he => hcase he.symm), Nat.add_zero]
        constructor
        · intro hav
          rw [hcnt]
          exact (h.2 d hdm).1 hav
        · intro hav
          rw [hcnt]
          exact (h.2 d hdm).2 hav

/-- A successful `advanceAssignment` preserves the coupling: the intermediate
transitions keep the assignment non-terminal, and completion terminates the
driver's unique non-terminal assignment while releasing the driver. -/
theorem inv_advanceAssignment (aid duid : Nat) (tgt : String) (db : DB)
    (h : Inv db) : Inv (applyOp db (.advanceAssignment aid duid tgt)) := by
  cases hr : updateAssignmentStatus aid duid tgt db with
  | error e => rw [applyOp_error (.advanceAssignment aid duid tgt) hr]; exact h
  | ok db' =>
    obtain ⟨driver, a0, hdf, haf, hcont, rfl⟩ := updateAssignmentStatus_ok hr
    rw [applyOp_ok (.advanceAssignment aid duid tgt) hr]
    obtain ⟨hnodupA, hbound, hnodupD⟩ := h.1
    have ha0mem : a0 ∈ db.assignments := List.mem_of_find?_eq_some haf
    have ha0p := List.find?_some haf
    simp only [Bool.and_eq_true, beq_iff_eq] at ha0p
    obtain ⟨ha0id, ha0drv⟩ := ha0p
    have hdrvmem : driver ∈ db.drivers := List.mem_of_find?_eq_some hdf
    have hstep := (contains_validStatusMap a0.status tgt).mp hcont
    have hWF : WF (advanceWrite aid driver.id a0.emergency_id tgt db) := by
      refine ⟨?_, ?_, ?_⟩
      · unfold advanceWrite
        dsimp only
        exact nodup_map_of_key_fixed _ _ _
          (fun a _ => advanceRow_id _ _ _ _) hnodupA
      · unfold advanceWrite
        dsimp only
        intro a haMem
        obtain ⟨x, hx, rfl⟩ := List.mem_map.mp haMem
        rw [advanceRow_id]
        exact hbound x hx
      · unfold advanceWrite
        dsimp only
        split_ifs
        · exact nodup_map_of_key_fixed _ _ _
            (fun d _ => setDriverAvailability_id _ _ _ _) hnodupD
        · exact hnodupD
    refine ⟨hWF, ?_⟩
    by_cases htgt : tgt = "completed"
    · subst htgt
      have hcur : a0.status = "arrived" := by
        rcases hstep with ⟨-, hT⟩ | ⟨-, hT⟩ | ⟨hcur, -⟩
        · exact absurd hT (by simp)
        · exact absurd hT (by simp)
        · exact hcur
      have hdrivers_eq :
          (advanceWrite aid driver.id a0.emergency_id "completed" db).drivers =
            db.drivers.map (setDriverAvailability driver.id true db.now) := by
        unfold advanceWrite
        dsimp only
        rw [if_pos rfl]
      have hrel : ∀ k : Nat,
          activeCount (advanceWrite aid driver.id a0.emergency_id "completed" db) k +
            (if driver.id = k then 1 else 0) = activeCount db k := by
        intro k
        unfold activeCount advanceWrite
        dsimp only
        have hkey := countP_map_key
          (fun a => a.driver_id == k && isNonTerminal a.status)
          (advanceRow aid "completed" db.now) (fun a => a.id) aid
          db.assignments hnodupA a0 ha0mem ha0id
          (fun x _ hne => advanceRow_other hne)
        have hqa0 : (fun a : AssignmentRow =>
            a.driver_id == k && isNonTerminal a.status) a0 = (driver.id == k) := by
          dsimp only
          rw [ha0drv, hcur]
          simp [isNonTerminal, activeStatuses]
        have hqfa0 : (fun a : AssignmentRow =>
            a.driver_id == k && isNonTerminal a.status)
              (advanceRow aid "completed" db.now a0) = false := by
          dsimp only
          rw [advanceRow_status ha0id]
          simp [isNonTerminal, activeStatuses]
        rw [hqa0, hqfa0] at hkey
        simp only [Bool.false_eq_true, if_false] at hkey
        by_cases hk : driver.id = k
        · rw [if_pos hk]
          rw [show (driver.id == k) = true by simp [hk], if_pos rfl] at hkey
          omega
        · rw [if_neg hk]
          rw [show (driver.id == k) = false by simp [hk]] at hkey
          simp only [Bool.false_eq_true, if_false] at hkey
          omega
      intro d' hd'
      rw [hdrivers_eq] at hd'
      obtain ⟨d, hdm, rfl⟩ := List.mem_map.mp hd'
      unfold setDriverAvailability
      by_cases hcase : d.id = driver.id
      · rw [if_pos hcase]
        constructor
        · intro _
          show activeCount
            (advanceWrite aid driver.id a0.emergency_id "completed" db) d.id = 0
          rw [hcase]
          have hthis := hrel driver.id
          rw [if_pos rfl] at hthis
          cases hav : driver.is_available
          · have h1 := (h.2 driver hdrvmem).2 hav
            omega
          · have h0 := (h.2 driver hdrvmem).1 hav
            omega
        · intro hx
          exact absurd hx (by simp)
      · rw [if_neg hcase]
        have hthis := hrel d.id
        rw [if_neg (fun he => hcase he.symm), Nat.add_zero] at hthis
        constructor
        · intro hav
          rw [hthis]
          exact (h.2 d hdm).1 hav
        · intro hav
          rw [hthis]
          exact (h.2 d hdm).2 hav
    · have hdrivers_eq :
          (advanceWrite aid driver.id a0.emergency_id tgt db).drivers =
            db.drivers := by
        unfold advanceWrite
        dsimp only
        rw [if_neg htgt]
      have hcnt : ∀ k : Nat,
          activeCount (advanceWrite aid driver.id a0.emergency_id tgt db) k =
            activeCount db k := by
        intro k
        unfold activeCount advanceWrite
        dsimp only
        apply countP_map_congr
        intro x hx
        by_cases hxid : x.id = aid
        · have hxa0 : x = a0 :=
            List.inj_on_of_nodup_map hnodupA hx ha0mem (by rw [hxid, ha0id])
          subst hxa0
          show ((advanceRow aid tgt db.now x).driver_id == k &&
              isNonTerminal (advanceRow aid tgt db.now x).status) =
            (x.driver_id == k && isNonTerminal x.status)
          rw [advanceRow_driver_id, advanceRow_status hxid]
          rcases hstep with ⟨hcur, hT⟩ | ⟨hcur, hT⟩ | ⟨-, hT⟩
          · rw [hcur, hT]
            simp [isNonTerminal, activeStatuses]
          · rw [hcur, hT]
            simp [isNonTerminal, activeStatuses]
          · exact absurd hT htgt
        · rw [advanceRow_other hxid]
      intro d' hd'
      rw [hdrivers_eq] at hd'
      constructor
      · intro hav
        rw [hcnt]
        exact (h.2 d' hd').1 hav
      · intro hav
        rw [hcnt]
        exact (h.2 d' hd').2 hav

/-- Every operation other than `setAvailability` preserves the inductive
driver-availability invariant. -/
theorem inv_applyOp (op : Op) (db : DB) (hop : op.isSetAvailability = false)
    (h : Inv db) : Inv (applyOp db op) := by
  cases op with
  | createRequest u la lo ad no => exact inv_createRequest u la lo ad no db h
  | acceptRequest rid huid => exact inv_acceptRequest rid huid db h
  | assignDriver rid huid did => exact inv_assignDriver rid huid did db h
  | advanceAssignment aid duid tgt => exact inv_advanceAssignment aid duid tgt db h
  | setAvailability duid av => simp [Op.isSetAvailability] at hop

/-- The inductive invariant implies the claim's formulation. -/
theorem claimInv_of_inv {db : DB} (h : Inv db) : ClaimDriverInv db := by
  intro d hd
  obtain ⟨h1, h2⟩ := h.2 d hd
  refine ⟨h2, fun hc => ?_⟩
  cases hav : d.is_available
  · rw [h2 hav] at hc
    cases hc
  · rfl

/-! ## Preservation of the no-InProgress invariant -/

/-- A request-table map whose rewriter either keeps a row's status or writes
a status other than `in_progress` preserves the invariant. -/
theorem noip_list_map (l : List RequestRow) (f : RequestRow → RequestRow)
    (hf : ∀ r ∈ l, (f r).status = r.status ∨ (f r).status ≠ "in_progress")
    (h : ∀ r ∈ l, r.status ≠ "in_progress") :
    ∀ r ∈ l.map f, r.status ≠ "in_progress" := by
  intro r hrm
  obtain ⟨x, hxm, rfl⟩ := List.mem_map.mp hrm
  rcases hf x hxm with he | hne
  · rw [he]
    exact h x hxm
  · exact hne

/-- No operation ever writes the status `in_progress` to a request. -/
theorem noip_applyOp (op : Op) (db : DB) (h : NoInProgress db) :
    NoInProgress (applyOp db op) := by
  cases op with
  | createRequest u la lo ad no =>
    rw [applyOp_ok (.createRequest u la lo ad no) rfl]
    intro r hrm
    rcases List.mem_append.mp hrm with hOld | hNew
    · exact h r hOld
    · simp only [List.mem_singleton] at hNew
      rw [hNew]
      simp
  | acceptRequest rid huid =>
    cases hr : acceptEmergencyRequest rid huid db with
    | error e => rw [applyOp_error (.acceptRequest rid huid) hr]; exact h
    | ok db' =>
      obtain ⟨hosp, -, rfl⟩ := acceptEmergencyRequest_ok hr
      rw [applyOp_ok (.acceptRequest rid huid) hr]
      intro r hrm
      have hrm' : r ∈ db.requests.map (fun x =>
          if x.id = rid then
            { x with status := "accepted", hospital_id := some hosp.id,
                     updated_at := db.now }
          else x) := hrm
      refine noip_list_map _ _ ?_ h r hrm'
      intro x _
      by_cases hx : x.id = rid
      · right
        rw [if_pos hx]
        simp
      · left
        rw [if_neg hx]
  | assignDriver rid huid did =>
    cases hr : assignDriverToEmergency rid huid did db with
    | error e => rw [applyOp_error (.assignDriver rid huid did) hr]; exact h
    | ok db' =>
      obtain ⟨hosp, req, driver, -, -, -, -, -, rfl⟩ :=
        assignDriverToEmergency_ok hr
      rw [applyOp_ok (.assignDriver rid huid did) hr]
      intro r hrm
      have hrm' : r ∈ db.requests.map (setRequestStatus rid "assigned" db.now) :=
        hrm
      refine noip_list_map _ _ ?_ h r hrm'
      intro x _
      unfold setRequestStatus
      by_cases hx : x.id = rid
      · right
        rw [if_pos hx]
        simp
      · left
        rw [if_neg hx]
  | advanceAssignment aid duid tgt =>
    cases hr : updateAssignmentStatus aid duid tgt db with
    | error e => rw [applyOp_error (.advanceAssignment aid duid tgt) hr]; exact h
    | ok db' =>
      obtain ⟨driver, a0, -, -, -, rfl⟩ := updateAssignmentStatus_ok hr
      rw [applyOp_ok (.advanceAssignment aid duid tgt) hr]
      by_cases htgt : tgt = "completed"
      · have heq : (advanceWrite aid driver.id a0.emergency_id tgt db).requests =
            db.requests.map (setRequestStatus a0.emergency_id "completed" db.now) := by
          unfold advanceWrite
          dsimp only
          rw [if_pos htgt]
        intro r hrm
        rw [heq] at hrm
        refine noip_list_map _ _ ?_ h r hrm
        intro x _
        unfold setRequestStatus
        by_cases hx : x.id = a0.emergency_id
        · right
          rw [if_pos hx]
          simp
        · left
          rw [if_neg hx]
      · have heq : (advanceWrite aid driver.id a0.emergency_id tgt db).requests =
            db.requests := by
          unfold advanceWrite
          dsimp only
          rw [if_neg htgt]
        intro r hrm
        rw [heq] at hrm
        exact h r hrm
  | setAvailability duid av =>
    cases hr : updateAvailabilityStatus duid av db with
    | error e => rw [applyOp_error (.setAvailability duid av) hr]; exact h
    | ok db' =>
      obtain ⟨driver, -, rfl⟩ := updateAvailabilityStatus_ok hr
      rw [applyOp_ok (.setAvailability duid av) hr]
      exact fun r hrm => h r hrm

/-- A validated transition produces exactly the write phase. -/
theorem updateAssignmentStatus_eq_ok {aid duid : Nat} {target : String}
    {db : DB} {driver : DriverRow} {a : AssignmentRow}
    (hd : db.drivers.find? (fun d => d.user_id == duid) = some driver)
    (ha : db.assignments.find? (fun x =>
      x.id == aid && x.driver_id == driver.id) = some a)
    (hc : (validStatusMap a.status).contains target = true) :
    updateAssignmentStatus aid duid target db =
      .ok (advanceWrite aid driver.id a.emergency_id target db) := by
  unfold updateAssignmentStatus
  simp only [hd, ha, hc]
  simp

/-- A transition outside the map fails with the code's 400 error. -/
theorem updateAssignmentStatus_eq_error {aid duid : Nat} {target : String}
    {db : DB} {driver : DriverRow} {a : AssignmentRow}
    (hd : db.drivers.find? (fun d => d.user_id == duid) = some driver)
    (ha : db.assignments.find? (fun x =>
      x.id == aid && x.driver_id == driver.id) = some a)
    (hc : (validStatusMap a.status).contains target = false) :
    updateAssignmentStatus aid duid target db =
      .error ⟨400, "Cannot transition from " ++ a.status ++ " to " ++ target⟩ := by
  unfold updateAssignmentStatus
  simp only [hd, ha, hc]
  simp

/-- `advanceRow` stamps `completed_at` on the matching row when completing. -/
theorem advanceRow_completed {aid now : Nat} {a : AssignmentRow}
    (h : a.id = aid) :
    (advanceRow aid "completed" now a).completed_at = some now := by
  unfold advanceRow
  rw [if_pos h]
  simp

/-! ## Claim theorems -/

/-- C1: for every successful `assignDriver(requestId, hospitalId, driverId)`
call, all three mutations appear together in the resulting store — the
Assignment row is created with status `assigned` and `assigned_at` equal to
the operation's `NOW()`, the request's status becomes `assigned`, and the
driver's `is_available` flag becomes false — while a failing call leaves the
store exactly unchanged (the transaction rolls back), so no partial
application is observable. -/
theorem assignDriver_atomic_effects (rid huid did : Nat) (db : DB) :
    ((assignDriverToEmergency rid huid did db).isOk = true →
      (applyOp db (.assignDriver rid huid did)).assignments =
        db.assignments ++
          [{ id := db.next_id, emergency_id := rid, driver_id := did,
             status := "assigned", assigned_at := db.now, en_route_at := none,
             arrived_at := none, completed_at := none,
             updated_at := db.now }] ∧
      (∀ r ∈ (applyOp db (.assignDriver rid huid did)).requests,
        r.id = rid → r.status = "assigned") ∧
      (∀ d ∈ (applyOp db (.assignDriver rid huid did)).drivers,
        d.id = did → d.is_available = false) ∧
      (applyOp db (.assignDriver rid huid did)).hospitals = db.hospitals) ∧
    ((assignDriverToEmergency rid huid did db).isOk = false →
      applyOp db (.assignDriver rid huid did) = db) := by
  cases hr : assignDriverToEmergency rid huid did db with
  | error e =>
    constructor
    · intro hok
      simp [Except.isOk, Except.toBool] at hok
    · intro _
      exact applyOp_error (.assignDriver rid huid did) hr
  | ok db' =>
    obtain ⟨hosp, req, driver, hh, hq, hs, hd, hv, rfl⟩ :=
      assignDriverToEmergency_ok hr
    constructor
    · intro _
      rw [applyOp_ok (.assignDriver rid huid did) hr]
      refine ⟨rfl, ?_, ?_, rfl⟩
      · intro r hrm hrid
        have hrm' : r ∈ db.requests.map (setRequestStatus rid "assigned" db.now) :=
          hrm
        obtain ⟨x, hxm, rfl⟩ := List.mem_map.mp hrm'
        unfold setRequestStatus at hrid ⊢
        by_cases hx : x.id = rid
        · rw [if_pos hx]
        · rw [if_neg hx] at hrid ⊢
          exact absurd hrid hx
      · intro d hdm hdid2
        have hdm' : d ∈ db.drivers.map (setDriverAvailability did false db.now) :=
          hdm
        obtain ⟨x, hxm, rfl⟩ := List.mem_map.mp hdm'
        unfold setDriverAvailability at hdid2 ⊢
        by_cases hx : x.id = did
        · rw [if_pos hx]
        · rw [if_neg hx] at hdid2 ⊢
          exact absurd hdid2 hx
    · intro hbad
      simp [Except.isOk, Except.toBool] at hbad

/-- Witness for C1: on the ready store, `assignDriver` succeeds and the
driver row is flipped to unavailable. -/
theorem assignDriver_atomic_effects_witness :
    (assignDriverToEmergency 5 10 3 dbAssignReady).isOk = true ∧
    (∀ d ∈ (applyOp dbAssignReady (Op.assignDriver 5 10 3)).drivers,
      d.id = 3 → d.is_available = false) :=
  ⟨by decide,
    ((assignDriver_atomic_effects 5 10 3 dbAssignReady).1 (by decide)).2.2.1⟩

/-- C2: with the assignment found and owned by the calling driver,
`advanceAssignment` succeeds exactly when the transition is one step forward
per `{assigned: [en_route], en_route: [arrived], arrived: [completed]}`; any
other target — skipping, regressing, repeating or unknown — fails with the
Conflict error (HTTP 400) and leaves the store unchanged. -/
theorem advanceAssignment_one_step_iff (aid duid : Nat) (target : String)
    (db : DB) (driver : DriverRow) (a : AssignmentRow)
    (hd : db.drivers.find? (fun d => d.user_id == duid) = some driver)
    (ha : db.assignments.find? (fun x =>
      x.id == aid && x.driver_id == driver.id) = some a) :
    ((updateAssignmentStatus aid duid target db).isOk = true ↔
      oneStepForward a.status target) ∧
    (¬ oneStepForward a.status target →
      updateAssignmentStatus aid duid target db =
        .error ⟨400, "Cannot transition from " ++ a.status ++ " to " ++ target⟩ ∧
      applyOp db (.advanceAssignment aid duid target) = db) := by
  have hcont := contains_validStatusMap a.status target
  by_cases hos : oneStepForward a.status target
  · have hok := updateAssignmentStatus_eq_ok hd ha (hcont.mpr hos)
    refine ⟨⟨fun _ => hos, fun _ => ?_⟩, fun hneg => absurd hos hneg⟩
    rw [hok]
    rfl
  · have hc : (validStatusMap a.status).contains target = false := by
      cases hb : (validStatusMap a.status).contains target
      · rfl
      · exact absurd (hcont.mp hb) hos
    have herr := updateAssignmentStatus_eq_error hd ha hc
    refine ⟨⟨fun hok => ?_, fun hstep => absurd hstep hos⟩,
      fun _ => ⟨herr, applyOp_error (.advanceAssignment aid duid target) herr⟩⟩
    rw [herr] at hok
    simp [Except.isOk, Except.toBool] at hok

/-- Witness for C2 (Scenario E): skipping from `assigned` straight to
`arrived` is refused with Conflict and the store is unchanged. -/
theorem advanceAssignment_one_step_iff_witness :
    ¬ oneStepForward asgAssigned.status "arrived" ∧
    updateAssignmentStatus 7 12 "arrived" dbAdvanceReady =
      .error ⟨400, "Cannot transition from " ++ asgAssigned.status ++
        " to " ++ "arrived"⟩ ∧
    applyOp dbAdvanceReady (Op.advanceAssignment 7 12 "arrived") =
      dbAdvanceReady :=
  ⟨by decide,
    (advanceAssignment_one_step_iff 7 12 "arrived" dbAdvanceReady
      { drvAvail with is_available := false } asgAssigned
      (by decide) (by decide)).2 (by decide)⟩

/-- C3: completing an assignment from `arrived` stamps `completed_at`,
cascades the bound request to `completed`, and releases the driver
(`is_available = true`), all inside the same atomic write. -/
theorem advanceAssignment_completion_cascade (aid duid : Nat) (db db' : DB)
    (driver : DriverRow) (a : AssignmentRow)
    (hd : db.drivers.find? (fun d => d.user_id == duid) = some driver)
    (ha : db.assignments.find? (fun x =>
      x.id == aid && x.driver_id == driver.id) = some a)
    (_harr : a.status = "arrived")
    (hok : updateAssignmentStatus aid duid "completed" db = .ok db') :
    (∀ x ∈ db'.assignments, x.id = aid →
      x.status = "completed" ∧ x.completed_at = some db.now) ∧
    (∀ r ∈ db'.requests, r.id = a.emergency_id → r.status = "completed") ∧
    (∀ d ∈ db'.drivers, d.id = driver.id → d.is_available = true) := by
  obtain ⟨driver0, a0, hd0, ha0, hc0, rfl⟩ := updateAssignmentStatus_ok hok
  have hdeq : driver = driver0 := Option.some.inj (hd.symm.trans hd0)
  subst hdeq
  have haeq : a = a0 := Option.some.inj (ha.symm.trans ha0)
  subst haeq
  refine ⟨?_, ?_, ?_⟩
  · intro x hxm hxid
    have hxm' : x ∈ db.assignments.map (advanceRow aid "completed" db.now) :=
      hxm
    obtain ⟨y, hym, rfl⟩ := List.mem_map.mp hxm'
    by_cases hy : y.id = aid
    · exact ⟨advanceRow_status hy, advanceRow_completed hy⟩
    · rw [advanceRow_other hy] at hxid ⊢
      exact absurd hxid hy
  · have heq :
        (advanceWrite aid driver.id a.emergency_id "completed" db).requests =
          db.requests.map (setRequestStatus a.emergency_id "completed" db.now) := by
      unfold advanceWrite
      dsimp only
      rw [if_pos rfl]
    intro r hrm hrid
    rw [heq] at hrm
    obtain ⟨y, hym, rfl⟩ := List.mem_map.mp hrm
    unfold setRequestStatus at hrid ⊢
    by_cases hy : y.id = a.emergency_id
    · rw [if_pos hy]
    · rw [if_neg hy] at hrid ⊢
      exact absurd hrid hy
  · have heq :
        (advanceWrite aid driver.id a.emergency_id "completed" db).drivers =
          db.drivers.map (setDriverAvailability driver.id true db.now) := by
      unfold advanceWrite
      dsimp only
      rw [if_pos rfl]
    intro d hdm hdid2
    rw [heq] at hdm
    obtain ⟨y, hym, rfl⟩ := List.mem_map.mp hdm
    unfold setDriverAvailability at hdid2 ⊢
    by_cases hy : y.id = driver.id
    · rw [if_pos hy]
    · rw [if_neg hy] at hdid2 ⊢
      exact absurd hdid2 hy

/-- Witness for C3 (Scenario D): completing the arrived assignment in the
sample store sets `completed_at`, completes the request, and releases the
driver. -/
theorem advanceAssignment_completion_cascade_witness :
    (∀ x ∈ (applyOp dbArrived (Op.advanceAssignment 7 12 "completed")).assignments,
      x.id = 7 → x.status = "completed" ∧ x.completed_at = some dbArrived.now) ∧
    (∀ r ∈ (applyOp dbArrived (Op.advanceAssignment 7 12 "completed")).requests,
      r.id = asgArrived.emergency_id → r.status = "completed") ∧
    (∀ d ∈ (applyOp dbArrived (Op.advanceAssignment 7 12 "completed")).drivers,
      d.id = ({ drvAvail with is_available := false } : DriverRow).id →
        d.is_available = true) :=
  advanceAssignment_completion_cascade 7 12 dbArrived
    (applyOp dbArrived (Op.advanceAssignment 7 12 "completed"))
    { drvAvail with is_available := false } asgArrived
    (by decide) (by decide) (by decide) (by decide)

/-- C4: `acceptRequest` fails with NotFound (404) when the request is
missing, with Conflict (400) when the request is no longer pending — in
particular when it is already accepted — and otherwise (the authenticated
accepting hospital existing) succeeds, atomically binding the hospital and
setting the status to `accepted` while touching no other table; every failure
leaves the store unchanged. -/
theorem acceptRequest_contract (rid huid : Nat) (db : DB) :
    (db.requests.find? (fun r => r.id == rid) = none →
      acceptEmergencyRequest rid huid db =
        .error ⟨404, "Emergency request not found"⟩) ∧
    (∀ req, db.requests.find? (fun r => r.id == rid) = some req →
      req.status ≠ "pending" →
      acceptEmergencyRequest rid huid db =
        .error ⟨400, "Emergency request is no longer pending"⟩) ∧
    (∀ req hosp, db.requests.find? (fun r => r.id == rid) = some req →
      req.status = "pending" →
      db.hospitals.find? (fun x => x.user_id == huid) = some hosp →
      (acceptEmergencyRequest rid huid db).isOk = true ∧
      (∀ r ∈ (applyOp db (.acceptRequest rid huid)).requests, r.id = rid →
        r.status = "accepted" ∧ r.hospital_id = some hosp.id) ∧
      (applyOp db (.acceptRequest rid huid)).drivers = db.drivers ∧
      (applyOp db (.acceptRequest rid huid)).assignments = db.assignments ∧
      (applyOp db (.acceptRequest rid huid)).hospitals = db.hospitals) ∧
    (∀ e, acceptEmergencyRequest rid huid db = .error e →
      applyOp db (.acceptRequest rid huid) = db) := by
  refine ⟨?_, ?_, ?_, ?_⟩
  · intro hnone
    apply acceptEmergencyRequest_error
    unfold acceptCheck
    simp only [hnone]
  · intro req hreq hnp
    apply acceptEmergencyRequest_error
    unfold acceptCheck
    simp only [hreq]
    rw [if_pos hnp]
  · intro req hosp hreq hp hh
    have hchk : acceptCheck rid huid db = .ok hosp := by
      unfold acceptCheck
      simp only [hreq, hh]
      rw [if_neg (by simp [hp])]
    have hok : acceptEmergencyRequest rid huid db =
        .ok (acceptWrite rid hosp.id db) := by
      unfold acceptEmergencyRequest
      rw [hchk]
      rfl
    refine ⟨by rw [hok]; rfl, ?_, ?_, ?_, ?_⟩
    · rw [applyOp_ok (.acceptRequest rid huid) hok]
      intro r hrm hrid
      have hrm' : r ∈ db.requests.map (fun x =>
          if x.id = rid then
            { x with status := "accepted", hospital_id := some hosp.id,
                     updated_at := db.now }
          else x) := hrm
      obtain ⟨y, hym, rfl⟩ := List.mem_map.mp hrm'
      by_cases hy : y.id = rid
      · rw [if_pos hy]
        exact ⟨rfl, rfl⟩
      · rw [if_neg hy] at hrid ⊢
        exact absurd hrid hy
    · rw [applyOp_ok (.acceptRequest rid huid) hok]
      rfl
    · rw [applyOp_ok (.acceptRequest rid huid) hok]
      rfl
    · rw [applyOp_ok (.acceptRequest rid huid) hok]
      rfl
  · intro e herr
    exact applyOp_error (.acceptRequest rid huid) herr

/-- Witness for C4 (Scenario B half): accepting the pending sample request
succeeds and binds hospital 1; the same request's status and binding are
visible in the store. -/
theorem acceptRequest_contract_witness :
    reqPending.status = "pending" ∧
    (acceptEmergencyRequest 5 10 dbRace).isOk = true ∧
    (∀ r ∈ (applyOp dbRace (Op.acceptRequest 5 10)).requests, r.id = 5 →
      r.status = "accepted" ∧ r.hospital_id = some hospA.id) := by
  have h3 := (acceptRequest_contract 5 10 dbRace).2.2.1 reqPending hospA
    (by decide) (by decide) (by decide)
  exact ⟨by decide, h3.1, h3.2.1⟩

/-- C5 counterexample: with an accepted request bound to the caller and a
driver that is available and active but unapproved, `assignDriver` fails with
the NotFound error (404, "Driver not found or not approved"), not with a
Conflict (400) as the claim states for unapproved drivers. -/
theorem assignDriver_unapproved_not_conflict :
    dbUnapproved.drivers.all
      (fun d => !d.is_approved && d.is_active && d.is_available) = true ∧
    assignDriverToEmergency 5 10 3 dbUnapproved =
      .error ⟨404, "Driver not found or not approved"⟩ ∧
    (404 : Nat) ≠ 400 := by decide

/-- C5 (amended): `assignDriver` fails with NotFound when the request is
missing or not bound to the calling hospital, with Conflict when the request
is not in `accepted` status, with NotFound — not Conflict — when the driver
is missing, unapproved or inactive, and with Conflict when the driver exists,
is approved and active, but is unavailable; every failure leaves the store
unchanged. -/
theorem assignDriver_error_contract (rid huid did : Nat) (db : DB) :
    (db.hospitals.find? (fun x => x.user_id == huid) = none →
      assignDriverToEmergency rid huid did db =
        .error ⟨404, "Hospital not found"⟩) ∧
    (∀ hosp, db.hospitals.find? (fun x => x.user_id == huid) = some hosp →
      db.requests.find? (fun r =>
        r.id == rid && r.hospital_id == some hosp.id) = none →
      assignDriverToEmergency rid huid did db =
        .error ⟨404, "Emergency request not found or not assigned to this hospital"⟩) ∧
    (∀ hosp req, db.hospitals.find? (fun x => x.user_id == huid) = some hosp →
      db.requests.find? (fun r =>
        r.id == rid && r.hospital_id == some hosp.id) = some req →
      req.status ≠ "accepted" →
      assignDriverToEmergency rid huid did db =
        .error ⟨400, "Emergency request must be in accepted status to assign a driver"⟩) ∧
    (∀ hosp req, db.hospitals.find? (fun x => x.user_id == huid) = some hosp →
      db.requests.find? (fun r =>
        r.id == rid && r.hospital_id == some hosp.id) = some req →
      req.status = "accepted" →
      db.drivers.find? (fun d =>
        d.id == did && d.is_approved && d.is_active) = none →
      assignDriverToEmergency rid huid did db =
        .error ⟨404, "Driver not found or not approved"⟩) ∧
    (∀ hosp req driver,
      db.hospitals.find? (fun x => x.user_id == huid) = some hosp →
      db.requests.find? (fun r =>
        r.id == rid && r.hospital_id == some hosp.id) = some req →
      req.status = "accepted" →
      db.drivers.find? (fun d =>
        d.id == did && d.is_approved && d.is_active) = some driver →
      driver.is_available = false →
      assignDriverToEmergency rid huid did db =
        .error ⟨400, "Driver is currently unavailable"⟩) ∧
    (∀ e, assignDriverToEmergency rid huid did db = .error e →
      applyOp db (.assignDriver rid huid did) = db) := by
  refine ⟨?_, ?_, ?_, ?_, ?_, ?_⟩
  · intro hn
    unfold assignDriverToEmergency
    simp only [hn]
  · intro hosp hh hrn
    unfold assignDriverToEmergency
    simp only [hh, hrn]
  · intro hosp req hh hrq hns
    unfold assignDriverToEmergency
    simp only [hh, hrq]
    rw [if_pos hns]
  · intro hosp req hh hrq hacc hdn
    unfold assignDriverToEmergency
    simp only [hh, hrq, hdn]
    rw [if_neg (by simp [hacc])]
  · intro hosp req driver hh hrq hacc hdv hv
    unfold assignDriverToEmergency
    simp only [hh, hrq, hdv]
    rw [if_neg (by simp [hacc]), if_pos hv]
  · intro e herr
    exact applyOp_error (.assignDriver rid huid did) herr

/-- Witness for C5: the unapproved-driver store hits the NotFound branch and
the store is unchanged. -/
theorem assignDriver_error_contract_witness :
    assignDriverToEmergency 5 10 3 dbUnapproved =
      .error ⟨404, "Driver not found or not approved"⟩ ∧
    applyOp dbUnapproved (Op.assignDriver 5 10 3) = dbUnapproved := by
  have h1 := (assignDriver_error_contract 5 10 3 dbUnapproved).2.2.2.1 hospA
    reqAccepted (by decide) (by decide) (by decide) (by decide)
  exact ⟨h1, (assignDriver_error_contract 5 10 3 dbUnapproved).2.2.2.2.2 _ h1⟩

/-- C6: for every store, pickup point, radius, limit and distance function,
`findNearbyHospitals` returns only active hospitals with non-null
coordinates, each tagged with its computed distance; every returned distance
is at most `maxDistance`; the list is sorted by non-decreasing distance; and
its length is at most `limit`. -/
theorem findNearbyHospitals_spec (dist : Rat → Rat → Rat → Rat → Rat)
    (la lo maxD : Rat) (lim : Nat) (db : DB) :
    (∀ c ∈ findNearbyHospitals dist la lo maxD lim db,
      ∃ h ∈ db.hospitals, h.is_active = true ∧ h.id = c.id ∧
        h.latitude = some c.latitude ∧ h.longitude = some c.longitude ∧
        c.distance = dist la lo c.latitude c.longitude) ∧
    (∀ c ∈ findNearbyHospitals dist la lo maxD lim db, c.distance ≤ maxD) ∧
    List.Sorted (fun a b : NearbyHospital => a.distance ≤ b.distance)
      (findNearbyHospitals dist la lo maxD lim db) ∧
    (findNearbyHospitals dist la lo maxD lim db).length ≤ lim := by
  have hsub : ∀ c ∈ findNearbyHospitals dist la lo maxD lim db,
      c ∈ nearbyPipeline dist la lo maxD db := by
    intro c hc
    have hc1 : c ∈ (nearbyPipeline dist la lo maxD db).mergeSort
        (fun a b => a.distance ≤ b.distance) :=
      (List.take_sublist lim _).subset hc
    exact (List.mergeSort_perm (nearbyPipeline dist la lo maxD db) _).subset hc1
  refine ⟨?_, ?_, ?_, ?_⟩
  · intro c hc
    have h2 := hsub c hc
    unfold nearbyPipeline at h2
    have h3 := List.mem_of_mem_filter h2
    obtain ⟨hRow, hhm, hfm⟩ := List.mem_filterMap.mp h3
    cases hla : hRow.latitude with
    | none =>
      rw [hla] at hfm
      cases hlo : hRow.longitude with
      | none => rw [hlo] at hfm; simp at hfm
      | some lo2 => rw [hlo] at hfm; simp at hfm
    | some la2 =>
      rw [hla] at hfm
      cases hlo : hRow.longitude with
      | none => rw [hlo] at hfm; simp at hfm
      | some lo2 =>
        rw [hlo] at hfm
        dsimp only at hfm
        by_cases hac : hRow.is_active = true
        · rw [if_pos hac] at hfm
          simp only [Option.some.injEq] at hfm
          subst hfm
          exact ⟨hRow, hhm, hac, rfl, hla, hlo, rfl⟩
        · rw [if_neg hac] at hfm
          simp at hfm
  · intro c hc
    have h2 := hsub c hc
    unfold nearbyPipeline at h2
    have h4 := List.of_mem_filter h2
    simpa using h4
  · have htrans : ∀ a b c : NearbyHospital,
        decide (a.distance ≤ b.distance) = true →
        decide (b.distance ≤ c.distance) = true →
        decide (a.distance ≤ c.distance) = true := by
      intro a b c h1 h2
      simp only [decide_eq_true_eq] at h1 h2 ⊢
      exact le_trans h1 h2
    have htotal : ∀ a b : NearbyHospital,
        (decide (a.distance ≤ b.distance) ||
          decide (b.distance ≤ a.distance)) = true := by
      intro a b
      rcases le_total a.distance b.distance with h | h <;> simp [h]
    have hs := List.sorted_mergeSort htrans htotal
      (nearbyPipeline dist la lo maxD db)
    have hs2 := List.Pairwise.sublist (List.take_sublist lim _) hs
    unfold findNearbyHospitals
    exact hs2.imp (fun hab => by simpa using hab)
  · unfold findNearbyHospitals
    exact List.length_take_le lim _

/-- Witness for C6: the single active, located sample hospital is returned
within the radius. -/
theorem findNearbyHospitals_spec_witness :
    candA ∈ findNearbyHospitals distOne 0 0 50 10 dbNearby ∧
    candA.distance ≤ 50 := by
  have h1 : nearbyPipeline distOne 0 0 50 dbNearby = [candA] := by decide
  have h2 : findNearbyHospitals distOne 0 0 50 10 dbNearby = [candA] := by
    unfold findNearbyHospitals
    rw [h1, List.mergeSort_singleton]
    rfl
  have hmem : candA ∈ findNearbyHospitals distOne 0 0 50 10 dbNearby := by
    rw [h2]
    exact List.mem_singleton_self candA
  exact ⟨hmem,
    (findNearbyHospitals_spec distOne 0 0 50 10 dbNearby).2.1 candA hmem⟩

/-- C7 counterexample: the claimed invariant is broken by a single completed
`setAvailability(false)` call of an idle driver — which the code permits (it
only refuses going unavailable with an active assignment, and §4.5 of the
spec requires this call to succeed) — leaving the driver unavailable with
zero non-terminal assignments. -/
theorem driverInv_broken_by_setAvailability :
    ClaimDriverInv dbIdleDriver ∧
    (updateAvailabilityStatus 12 false dbIdleDriver).isOk = true ∧
    ¬ ClaimDriverInv (runSeq dbIdleDriver [Op.setAvailability 12 false]) := by
  decide

/-- C7 (amended): after every sequence of completed `createRequest`,
`acceptRequest`, `assignDriver` and `advanceAssignment` calls — no
`setAvailability` — starting from a well-formed store in which every
available driver has no non-terminal assignment and every unavailable driver
exactly one, every driver with `is_available = false` has exactly one
non-terminal assignment and every driver with no non-terminal assignment has
`is_available = true`. -/
theorem driver_availability_invariant (ops : List Op) (db : DB)
    (hops : ∀ op ∈ ops, op.isSetAvailability = false) (h : Inv db) :
    ClaimDriverInv (runSeq db ops) := by
  induction ops generalizing db with
  | nil => exact claimInv_of_inv h
  | cons op t ih =>
    exact ih (applyOp db op) (fun o ho => hops o (List.mem_cons_of_mem op ho))
      (inv_applyOp op db (hops op (List.mem_cons_self op t)) h)

/-- Witness for C7: a full dispatch sequence (create, accept, assign) on the
pipeline store preserves the coupling. -/
theorem driver_availability_invariant_witness :
    (∀ op ∈ ([Op.createRequest 20 0 0 "x" "", Op.acceptRequest 8 10,
        Op.assignDriver 8 10 3] : List Op), op.isSetAvailability = false) ∧
    Inv dbPipeline ∧
    ClaimDriverInv (runSeq dbPipeline [Op.createRequest 20 0 0 "x" "",
      Op.acceptRequest 8 10, Op.assignDriver 8 10 3]) :=
  ⟨by decide, by decide,
    driver_availability_invariant _ dbPipeline (by decide) (by decide)⟩

/-- C8 (code-schema divergence): `validStatusMap` admits the `en_route` and
`arrived` transitions, whose UPDATE sets the columns `en_route_at` /
`arrived_at` and writes the status values `en_route` / `arrived`; but the
`emergency_assignments` table of 001_initial_schema.sql declares neither
column (it has `accepted_at` and `pickup_at` instead) and the
`emergency_status` enum has neither value — even `updated_at` is absent from
the table — so each such UPDATE fails at the database and rolls back, and
the timestamps the claim describes are never stamped. -/
theorem advance_timestamp_columns_missing :
    ((validStatusMap "assigned").contains "en_route" = true ∧
      updateAssignmentSetColumns "en_route" =
        ["status", "en_route_at", "updated_at"] ∧
      "en_route_at" ∉ emergencyAssignmentsColumns ∧
      "en_route" ∉ emergencyStatusValues) ∧
    ((validStatusMap "en_route").contains "arrived" = true ∧
      updateAssignmentSetColumns "arrived" =
        ["status", "arrived_at", "updated_at"] ∧
      "arrived_at" ∉ emergencyAssignmentsColumns ∧
      "arrived" ∉ emergencyStatusValues) ∧
    "updated_at" ∉ emergencyAssignmentsColumns ∧
    "completed_at" ∈ emergencyAssignmentsColumns := by decide

/-- C9 (unsynchronized accept race): under the read-read-write-write
interleaving of two concurrent `acceptRequest` transactions, both
application-level checks see the request still pending and both callers
succeed — the second binding silently overwrites the first — whereas the
serialized execution the claim requires yields one success and one Conflict. -/
theorem acceptRace_two_successes :
    (acceptRace 5 10 11 dbRace).1 = none ∧
    (acceptRace 5 10 11 dbRace).2.1 = none ∧
    (∀ r ∈ (acceptRace 5 10 11 dbRace).2.2.requests, r.id = 5 →
      r.status = "accepted" ∧ r.hospital_id = some hospB.id) ∧
    acceptEmergencyRequest 5 11 (applyOp dbRace (.acceptRequest 5 10)) =
      .error ⟨400, "Emergency request is no longer pending"⟩ := by decide

/-- C10: no operation of the core writes the status `in_progress`: from any
store without an `in_progress` request, every sequence of completed
operations (create, accept, assign, advance, set availability) again yields
a store without one, so a request in `in_progress` is unreachable. -/
theorem requests_never_in_progress (ops : List Op) (db : DB)
    (h : NoInProgress db) : NoInProgress (runSeq db ops) := by
  induction ops generalizing db with
  | nil => exact h
  | cons op t ih => exact ih (applyOp db op) (noip_applyOp op db h)

/-- Witness for C10: a full dispatch sequence on the pipeline store never
produces an `in_progress` request. -/
theorem requests_never_in_progress_witness :
    NoInProgress dbPipeline ∧
    NoInProgress (runSeq dbPipeline [Op.createRequest 20 0 0 "x" "",
      Op.acceptRequest 8 10, Op.assignDriver 8 10 3,
      Op.advanceAssignment 9 12 "en_route", Op.setAvailability 12 true]) :=
  ⟨by decide, requests_never_in_progress _ dbPipeline (by decide)⟩

end InstantAmbulance
